import Mathlib

/-
Shallow embedding of the state-machine logic of src/App.tsx (MyGeoLocation).

The component state is the collection of React useState hooks declared at the
top of App (lines 36-42): location, region, loading, errorMsg,
permissionGranted, mapType, showDetails.  The map ref (mapRef) is modelled by
a Boolean mapMounted: mapRef.current is non-null exactly when the MapView is
mounted.  Floating-point numbers are modelled as rationals; JavaScript string
formatting of numbers (toFixed) is presentational and the details Alert is
modelled as an effect carrying the raw location sample.  Each asynchronous
collaborator call (Location.getCurrentPositionAsync, MapView.getCamera) is
modelled by passing its resolved outcome as an explicit argument, and each
outbound call (alerts, fetches, map animations) is recorded in an effect
trace returned next to the new state.
-/

set_option autoImplicit false

namespace MyGeoLocation

/-- Map type state, App.tsx line 41: useState of standard or satellite. -/
inductive MapType where
  | standard
  | satellite
deriving DecidableEq, Repr

/-- The coords field of an expo-location LocationObject (used at lines
146, 94-95): latitude and longitude always present, the motion and accuracy
attributes optional. -/
structure Coords where
  latitude : ℚ
  longitude : ℚ
  altitude : Option ℚ
  accuracy : Option ℚ
  speed : Option ℚ
  heading : Option ℚ
deriving DecidableEq, Repr

/-- An expo-location LocationObject as stored in the location state
(App.tsx line 36): coordinates plus a capture timestamp in epoch ms. -/
structure LocationObject where
  coords : Coords
  timestamp : ℤ
deriving DecidableEq, Repr

/-- A react-native-maps Region (App.tsx line 37): center plus angular spans. -/
structure Region where
  latitude : ℚ
  longitude : ℚ
  latitudeDelta : ℚ
  longitudeDelta : ℚ
deriving DecidableEq, Repr

/-- A react-native-maps Camera as read back by mapRef.getCamera() (lines
116, 130): center, orientation, and an optional zoom level.  The source
spreads the whole camera when updating zoom, so all fields are kept. -/
structure Camera where
  centerLatitude : ℚ
  centerLongitude : ℚ
  pitch : ℚ
  heading : ℚ
  altitude : Option ℚ
  zoom : Option ℚ
deriving DecidableEq, Repr

/-- CONSTANTA_REGION, App.tsx lines 25-30. -/
def CONSTANTA_REGION : Region where
  latitude := 44.159801
  longitude := 28.6348
  latitudeDelta := 0.0922
  longitudeDelta := 0.0421

/-- Observable side effects of the operations: user-facing alerts, the
Position Service call, and fire-and-forget map animations. -/
inductive Effect where
  | alert (title : String) (message : String)
  | detailsAlert (loc : LocationObject)
  | fetchPosition
  | animateToRegion (r : Region) (durationMs : ℕ)
  | animateCamera (c : Camera) (durationMs : ℕ)
deriving DecidableEq, Repr

/-- The App component state: the seven useState hooks of App.tsx lines
36-42, plus mapMounted standing for mapRef.current being non-null. -/
structure AppState where
  location : Option LocationObject
  region : Region
  loading : Bool
  errorMsg : Option String
  permissionGranted : Bool
  mapType : MapType
  showDetails : Bool
  mapMounted : Bool
deriving DecidableEq, Repr

/-- The initial hook values of App.tsx lines 36-42 (mapMounted true once the
MapView has rendered). -/
def initialState : AppState where
  location := none
  region := CONSTANTA_REGION
  loading := false
  errorMsg := none
  permissionGranted := false
  mapType := MapType.standard
  showDetails := false
  mapMounted := true

/-- The AcquisitionState of the spec, derived from the observable hook
state: the loading overlay shows InFlight, a pending errorMsg shows Failed,
a stored sample with no error shows Succeeded, otherwise Idle. -/
inductive AcquisitionState where
  | idle
  | inFlight
  | succeeded
  | failed
deriving DecidableEq, Repr

/-- Derives the spec-level AcquisitionState from the component state. -/
def acquisitionState (s : AppState) : AcquisitionState :=
  if s.loading then AcquisitionState.inFlight
  else if s.errorMsg.isSome then AcquisitionState.failed
  else if s.location.isSome then AcquisitionState.succeeded
  else AcquisitionState.idle

/-- The error message set by the catch branch of getCurrentPosition,
App.tsx line 108. -/
def gpsErrorMsg : String := "Could not get current location. Make sure GPS is enabled!"

/-- getCurrentPosition, App.tsx lines 69-112.  The resolved outcome of
Location.getCurrentPositionAsync is passed as the fetch argument; it is only
consumed (and the fetchPosition effect only recorded) on the granted path.
When permission is missing the function alerts and returns early.  On the
granted path loading is set, errorMsg cleared, and then either the sample is
stored, the region recomputed to a 0.01-degree span around it and animated
over 1000 ms (when the map is mounted), or the catch branch records the GPS
error message; finally loading is cleared. -/
def getCurrentPosition (s : AppState) (fetch : Except String LocationObject) :
    AppState × List Effect :=
  if !s.permissionGranted then
    (s, [Effect.alert ("Permission Required") ("The app needs location permission!")])
  else
    match fetch with
    | Except.ok currentLocation =>
        let newRegion : Region :=
          { latitude := currentLocation.coords.latitude
            longitude := currentLocation.coords.longitude
            latitudeDelta := 0.01
            longitudeDelta := 0.01 }
        ({ s with
            loading := false
            errorMsg := none
            location := some currentLocation
            region := newRegion },
         Effect.fetchPosition ::
           (if s.mapMounted then [Effect.animateToRegion newRegion 1000] else []))
    | Except.error _ =>
        ({ s with loading := false, errorMsg := some gpsErrorMsg },
         [Effect.fetchPosition])

/-- The main button of App.tsx lines 269-273: it invokes getCurrentPosition
on press but carries disabled when loading is true, so a press while an
acquisition is in flight is ignored. -/
def pressGetPosition (s : AppState) (fetch : Except String LocationObject) :
    AppState × List Effect :=
  if s.loading then (s, []) else getCurrentPosition s fetch

/-- JavaScript camera.zoom or-default, App.tsx lines 119 and 131: an
undefined zoom, and the falsy zoom 0, both fall back to 10. -/
def zoomOrDefault (z : Option ℚ) : ℚ :=
  match z with
  | none => 10
  | some v => if v = 0 then 10 else v

/-- The camera computed by zoomIn, App.tsx lines 117-120: spread the read
camera and replace zoom by (camera.zoom or 10) + 1. -/
def zoomInCam (camera : Camera) : Camera :=
  { camera with zoom := some (zoomOrDefault camera.zoom + 1) }

/-- The camera computed by zoomOut, App.tsx lines 131-135: newZoom is
(camera.zoom or 10) - 1, and the stored zoom is newZoom when newZoom > 0,
else 1. -/
def zoomOutCam (camera : Camera) : Camera :=
  let newZoom := zoomOrDefault camera.zoom - 1
  { camera with zoom := some (if 0 < newZoom then newZoom else 1) }

/-- zoomIn, App.tsx lines 114-126: a no-op when the map is unmounted or the
camera read fails; otherwise animates to the increased-zoom camera over
300 ms. -/
def zoomIn (mapMounted : Bool) (camRead : Except String Camera) : List Effect :=
  if mapMounted then
    match camRead with
    | Except.ok camera => [Effect.animateCamera (zoomInCam camera) 300]
    | Except.error _ => []
  else []

/-- zoomOut, App.tsx lines 128-141: a no-op when the map is unmounted or the
camera read fails; otherwise animates to the decreased-zoom camera over
300 ms. -/
def zoomOut (mapMounted : Bool) (camRead : Except String Camera) : List Effect :=
  if mapMounted then
    match camRead with
    | Except.ok camera => [Effect.animateCamera (zoomOutCam camera) 300]
    | Except.error _ => []
  else []

/-- showLocationDetails, App.tsx lines 143-160: returns immediately when no
location is stored; otherwise raises the details Alert.  The Alert body
formats the fields of the stored sample; the formatting is presentational,
so the effect carries the sample itself. -/
def showLocationDetails (s : AppState) : AppState × List Effect :=
  match s.location with
  | none => (s, [])
  | some loc => (s, [Effect.detailsAlert loc])

/-- The current-location marker of App.tsx lines 228-243: it is rendered
only when a location is stored, and pressing it sets showDetails to true.
With no location the marker does not exist and no press can occur. -/
def pressUserMarker (s : AppState) : AppState :=
  if s.location.isSome then { s with showDetails := true } else s

/-- resetToConstanta, App.tsx lines 162-170: resets the region to the
Constanta default, clears the stored location, hides the details panel, and
animates back to the Constanta region over 1000 ms when the map is mounted.
It touches no other hook. -/
def resetToConstanta (s : AppState) : AppState × List Effect :=
  ({ s with
      region := CONSTANTA_REGION
      location := none
      showDetails := false },
   if s.mapMounted then [Effect.animateToRegion CONSTANTA_REGION 1000] else [])

/-- toggleMapType, App.tsx lines 172-174. -/
def toggleMapType (s : AppState) : AppState :=
  { s with
      mapType := if s.mapType = MapType.standard then MapType.satellite
                 else MapType.standard }

/-- The outcome of the startup permission request, App.tsx lines 47-67:
granted, denied (status not granted), or the request itself throwing. -/
inductive PermissionResult where
  | granted
  | denied
  | err
deriving DecidableEq, Repr

/-- The state update applied when the permission request of App.tsx lines
47-67 resolves: grant records permission and clears the error message,
denial records the denial message, a thrown error records the error message
without touching permissionGranted; loading always ends false. -/
def resolvePermission (s : AppState) : PermissionResult → AppState
  | PermissionResult.granted =>
      { s with permissionGranted := true, errorMsg := none, loading := false }
  | PermissionResult.denied =>
      { s with permissionGranted := false,
               errorMsg := some ("Location permission was denied!"),
               loading := false }
  | PermissionResult.err =>
      { s with errorMsg := some ("Error getting permission!"), loading := false }

/-- The sample coordinate of the spec scenario: latitude 44.18, longitude
28.65, accuracy 5 m. -/
def sampleCoords : Coords where
  latitude := 44.18
  longitude := 28.65
  altitude := none
  accuracy := some 5
  speed := none
  heading := none

/-- A concrete LocationObject used to exercise the operations. -/
def sampleLoc : LocationObject where
  coords := sampleCoords
  timestamp := 1700000000000

/-- The state after the startup permission request resolved as granted. -/
def grantedState : AppState := { initialState with permissionGranted := true }

/-- A state with an acquisition in flight (loading true). -/
def loadingState : AppState := { grantedState with loading := true }

/-- A state holding a stored sample. -/
def locatedState : AppState := { grantedState with location := some sampleLoc }

/-- A reachable state with both a stored sample and a pending error message:
produced by a successful acquisition followed by a failed one (the failure
keeps the old sample and records the GPS error message). -/
def erroredState : AppState :=
  { grantedState with
      location := some sampleLoc
      errorMsg := some gpsErrorMsg
      showDetails := true }

/-- A concrete camera over Constanta with the given zoom. -/
def camAt (z : Option ℚ) : Camera where
  centerLatitude := 44.159801
  centerLongitude := 28.6348
  pitch := 0
  heading := 0
  altitude := none
  zoom := z

/-- C1: for every permission state, getCurrentPosition calls the Position
Service only when permission is granted; when permission is not granted it
raises the permission-required alert without invoking the collaborator,
and the whole state — in particular the stored sample and the derived
AcquisitionState (Idle stays Idle) — is unchanged. -/
theorem permission_gate (s : AppState) (fetch : Except String LocationObject)
    (h : s.permissionGranted = false) :
    getCurrentPosition s fetch =
      (s, [Effect.alert ("Permission Required") ("The app needs location permission!")]) ∧
    Effect.fetchPosition ∉ (getCurrentPosition s fetch).2 ∧
    (getCurrentPosition s fetch).1.location = s.location ∧
    acquisitionState (getCurrentPosition s fetch).1 = acquisitionState s := by
  simp [getCurrentPosition, h]

/-- C1 witness: at the initial state (permission not yet granted) the alert
is raised, no fetch happens, and the state is returned untouched. -/
theorem permission_gate_witness :
    getCurrentPosition initialState (Except.ok sampleLoc) =
      (initialState,
       [Effect.alert ("Permission Required") ("The app needs location permission!")]) ∧
    Effect.fetchPosition ∉ (getCurrentPosition initialState (Except.ok sampleLoc)).2 ∧
    (getCurrentPosition initialState (Except.ok sampleLoc)).1.location =
      initialState.location ∧
    acquisitionState (getCurrentPosition initialState (Except.ok sampleLoc)).1 =
      acquisitionState initialState :=
  permission_gate initialState (Except.ok sampleLoc) rfl

/-- C2: at most one acquisition is in flight at a time: the main button is
disabled while loading, so a press during a pending acquisition is ignored
(state untouched, no collaborator call); any single invocation issues at
most one Position Service call; and a completed granted acquisition stores
exactly the sample of its one resolved call. -/
theorem single_in_flight (s : AppState) (fetch : Except String LocationObject) :
    (s.loading = true → pressGetPosition s fetch = (s, [])) ∧
    (pressGetPosition s fetch).2.count Effect.fetchPosition ≤ 1 ∧
    (∀ loc, s.loading = false → s.permissionGranted = true →
      fetch = Except.ok loc →
      (pressGetPosition s fetch).1.location = some loc ∧
      (pressGetPosition s fetch).2.count Effect.fetchPosition = 1) := by
  refine ⟨fun h => by simp [pressGetPosition, h], ?_, ?_⟩
  · by_cases hl : s.loading
    · simp [pressGetPosition, hl]
    · by_cases hp : s.permissionGranted
      · cases fetch with
        | ok loc =>
            by_cases hm : s.mapMounted <;>
              simp [pressGetPosition, getCurrentPosition, hl, hp, hm]
        | error e => simp [pressGetPosition, getCurrentPosition, hl, hp]
      · simp [pressGetPosition, getCurrentPosition, hl, hp]
  · intro loc hl hp hf
    subst hf
    by_cases hm : s.mapMounted <;>
      simp [pressGetPosition, getCurrentPosition, hl, hp, hm]

/-- C2 witness: a press while loading is ignored, and a press at rest with
permission granted resolves to exactly one fetch whose sample is stored. -/
theorem single_in_flight_witness :
    pressGetPosition loadingState (Except.ok sampleLoc) = (loadingState, []) ∧
    (pressGetPosition grantedState (Except.ok sampleLoc)).1.location = some sampleLoc ∧
    (pressGetPosition grantedState (Except.ok sampleLoc)).2.count Effect.fetchPosition = 1 :=
  ⟨(single_in_flight loadingState (Except.ok sampleLoc)).1 rfl,
   ((single_in_flight grantedState (Except.ok sampleLoc)).2.2 sampleLoc rfl rfl rfl).1,
   ((single_in_flight grantedState (Except.ok sampleLoc)).2.2 sampleLoc rfl rfl rfl).2⟩

/-- C3: a successful granted acquisition stores the returned sample
wholesale as the new location, the derived AcquisitionState is Succeeded,
and the viewport is set and animated (map mounted) to a region centered on
the returned coordinate with a 0.01-degree span in both axes. -/
theorem acquisition_success (s : AppState) (loc : LocationObject)
    (h : s.permissionGranted = true) :
    (getCurrentPosition s (Except.ok loc)).1.location = some loc ∧
    acquisitionState (getCurrentPosition s (Except.ok loc)).1 =
      AcquisitionState.succeeded ∧
    (getCurrentPosition s (Except.ok loc)).1.region =
      { latitude := loc.coords.latitude, longitude := loc.coords.longitude,
        latitudeDelta := 0.01, longitudeDelta := 0.01 } ∧
    (s.mapMounted = true →
      (getCurrentPosition s (Except.ok loc)).2 =
        [Effect.fetchPosition,
         Effect.animateToRegion
           { latitude := loc.coords.latitude, longitude := loc.coords.longitude,
             latitudeDelta := 0.01, longitudeDelta := 0.01 } 1000]) := by
  refine ⟨?_, ?_, ?_, fun hm => ?_⟩ <;>
    simp [getCurrentPosition, acquisitionState, h, *]

/-- C3 witness: the spec scenario — permission granted, the service returns
latitude 44.18, longitude 28.65, accuracy 5 — stores exactly that sample,
reaches Succeeded, and animates to the 0.01-degree region around it. -/
theorem acquisition_success_witness :
    (getCurrentPosition grantedState (Except.ok sampleLoc)).1.location = some sampleLoc ∧
    acquisitionState (getCurrentPosition grantedState (Except.ok sampleLoc)).1 =
      AcquisitionState.succeeded ∧
    (getCurrentPosition grantedState (Except.ok sampleLoc)).1.region =
      { latitude := sampleLoc.coords.latitude, longitude := sampleLoc.coords.longitude,
        latitudeDelta := 0.01, longitudeDelta := 0.01 } ∧
    (grantedState.mapMounted = true →
      (getCurrentPosition grantedState (Except.ok sampleLoc)).2 =
        [Effect.fetchPosition,
         Effect.animateToRegion
           { latitude := sampleLoc.coords.latitude,
             longitude := sampleLoc.coords.longitude,
             latitudeDelta := 0.01, longitudeDelta := 0.01 } 1000]) :=
  acquisition_success grantedState sampleLoc rfl

/-- C4: a failed granted acquisition records the human-readable GPS error
message, the derived AcquisitionState is Failed, the stored sample is
unchanged, and the viewport is untouched (same region, no animation). -/
theorem acquisition_failure (s : AppState) (e : String)
    (h : s.permissionGranted = true) :
    (getCurrentPosition s (Except.error e)).1.location = s.location ∧
    (getCurrentPosition s (Except.error e)).1.region = s.region ∧
    (getCurrentPosition s (Except.error e)).1.errorMsg = some gpsErrorMsg ∧
    acquisitionState (getCurrentPosition s (Except.error e)).1 =
      AcquisitionState.failed ∧
    (getCurrentPosition s (Except.error e)).2 = [Effect.fetchPosition] ∧
    (∀ r d, Effect.animateToRegion r d ∉ (getCurrentPosition s (Except.error e)).2) := by
  refine ⟨?_, ?_, ?_, ?_, ?_, fun r d => ?_⟩ <;>
    simp [getCurrentPosition, acquisitionState, h]

/-- C4 witness: the spec scenario — permission granted, the service times
out — yields Failed with the GPS message, keeps the (absent) sample, and
leaves the viewport alone. -/
theorem acquisition_failure_witness :
    (getCurrentPosition grantedState (Except.error ("timeout"))).1.location =
      grantedState.location ∧
    (getCurrentPosition grantedState (Except.error ("timeout"))).1.region =
      grantedState.region ∧
    (getCurrentPosition grantedState (Except.error ("timeout"))).1.errorMsg =
      some gpsErrorMsg ∧
    acquisitionState (getCurrentPosition grantedState (Except.error ("timeout"))).1 =
      AcquisitionState.failed ∧
    (getCurrentPosition grantedState (Except.error ("timeout"))).2 =
      [Effect.fetchPosition] ∧
    (∀ r d, Effect.animateToRegion r d ∉
      (getCurrentPosition grantedState (Except.error ("timeout"))).2) :=
  acquisition_failure grantedState ("timeout") rfl

/-- C5 counterexample: at current camera zoom 3/2 the computed newZoom is
1/2, which is positive, so the guard newZoom > 0 keeps it and zoomOut
stores zoom 1/2 — a value strictly below 1 — refuting the claim that the
new zoom is clamped to a minimum of 1 and that a value below 1 is never
stored. -/
theorem zoomOut_fractional_counterexample :
    (zoomOutCam (camAt (some (3/2)))).zoom = some (1/2) ∧ ((1:ℚ)/2) < 1 := by
  constructor
  · norm_num [zoomOutCam, zoomOrDefault, camAt]
  · norm_num

/-- C5 amended: zoomOut stores newZoom when newZoom > 0 and 1 otherwise
(not a clamp at 1): the stored zoom is always strictly positive — in
particular never negative — it equals z - 1 whenever the current zoom z is
at least 2, and at current zoom 1 the stored zoom remains 1; only values in
the open interval (0, 1) escape the floor the claim describes. -/
theorem zoomOut_floor_amended (camera : Camera) :
    (∃ z, (zoomOutCam camera).zoom = some z ∧ 0 < z) ∧
    (camera.zoom = some 1 → (zoomOutCam camera).zoom = some 1) ∧
    (∀ z, camera.zoom = some z → 2 ≤ z →
      (zoomOutCam camera).zoom = some (z - 1)) := by
  refine ⟨⟨if 0 < zoomOrDefault camera.zoom - 1 then zoomOrDefault camera.zoom - 1
           else 1, rfl, ?_⟩, fun h1 => ?_, fun z hz h2 => ?_⟩
  · split
    · assumption
    · norm_num
  · simp [zoomOutCam, zoomOrDefault, h1]
  · have hz0 : z ≠ 0 := by intro h; rw [h] at h2; norm_num at h2
    have hpos : 0 < z - 1 := by linarith
    simp [zoomOutCam, zoomOrDefault, hz, hz0, hpos]

/-- C5 amended witness: at zoom 1 zoomOut keeps zoom 1, and at zoom 5 it
stores 5 - 1. -/
theorem zoomOut_floor_amended_witness :
    (zoomOutCam (camAt (some 1))).zoom = some 1 ∧
    (zoomOutCam (camAt (some 5))).zoom = some (5 - 1) :=
  ⟨(zoomOut_floor_amended (camAt (some 1))).2.1 rfl,
   (zoomOut_floor_amended (camAt (some 5))).2.2 5 rfl (by decide)⟩

/-- C6 counterexample: resetToConstanta never clears the error message, so
from a reachable state with a pending GPS error (a successful acquisition
followed by a failed one) the state after reset still shows the error and
the derived AcquisitionState is Failed, not Idle — refuting the
regardless-of-prior-state claim. -/
theorem reset_error_counterexample :
    acquisitionState (resetToConstanta erroredState).1 = AcquisitionState.failed ∧
    AcquisitionState.failed ≠ AcquisitionState.idle := by
  constructor
  · simp [resetToConstanta, acquisitionState, erroredState, grantedState,
          initialState, gpsErrorMsg]
  · decide

/-- C6 amended: resetToConstanta clears the stored sample, hides the
details panel, restores the Constanta default region and animates to it
(map mounted), but it leaves errorMsg and loading untouched; the derived
AcquisitionState therefore returns to Idle only when no error message was
pending and no acquisition was in flight. -/
theorem reset_spec_amended (s : AppState) :
    (resetToConstanta s).1.location = none ∧
    (resetToConstanta s).1.showDetails = false ∧
    (resetToConstanta s).1.region = CONSTANTA_REGION ∧
    (resetToConstanta s).1.errorMsg = s.errorMsg ∧
    (resetToConstanta s).1.loading = s.loading ∧
    (s.mapMounted = true →
      (resetToConstanta s).2 = [Effect.animateToRegion CONSTANTA_REGION 1000]) ∧
    (s.errorMsg = none → s.loading = false →
      acquisitionState (resetToConstanta s).1 = AcquisitionState.idle) := by
  refine ⟨?_, ?_, ?_, ?_, ?_, fun hm => ?_, fun he hl => ?_⟩ <;>
    simp [resetToConstanta, acquisitionState, *]

/-- C6 amended witness: resetting from the located state (no pending error,
not loading, map mounted) clears the sample and panel, restores and
animates to the Constanta region, and lands in Idle. -/
theorem reset_spec_amended_witness :
    (resetToConstanta locatedState).1.location = none ∧
    (resetToConstanta locatedState).1.showDetails = false ∧
    (resetToConstanta locatedState).1.region = CONSTANTA_REGION ∧
    (resetToConstanta locatedState).1.errorMsg = locatedState.errorMsg ∧
    (resetToConstanta locatedState).1.loading = locatedState.loading ∧
    (locatedState.mapMounted = true →
      (resetToConstanta locatedState).2 =
        [Effect.animateToRegion CONSTANTA_REGION 1000]) ∧
    (locatedState.errorMsg = none → locatedState.loading = false →
      acquisitionState (resetToConstanta locatedState).1 = AcquisitionState.idle) :=
  reset_spec_amended locatedState

/-- C7: zoomIn followed by zoomOut from any starting zoom z with z ≥ 2
returns the camera zoom to z, and zoomOut at starting zoom 1 clamps the
result to 1 instead of going below it. -/
theorem zoom_round_trip (camera : Camera) :
    (∀ z, camera.zoom = some z → 2 ≤ z →
      (zoomOutCam (zoomInCam camera)).zoom = some z) ∧
    (camera.zoom = some 1 → (zoomOutCam camera).zoom = some 1) := by
  constructor
  · intro z hz h2
    have hz0 : z ≠ 0 := by intro h; rw [h] at h2; norm_num at h2
    have hz1 : z + 1 ≠ 0 := by intro h; nlinarith
    have hpos : 0 < z + 1 - 1 := by linarith
    simp [zoomInCam, zoomOutCam, zoomOrDefault, hz, hz0, hz1, hpos]
    intro h
    linarith
  · intro h1
    simp [zoomOutCam, zoomOrDefault, h1]

/-- C7 witness: the round trip at zoom 5 returns to 5, and zoomOut at
zoom 1 stays at 1. -/
theorem zoom_round_trip_witness :
    (zoomOutCam (zoomInCam (camAt (some 5)))).zoom = some 5 ∧
    (zoomOutCam (camAt (some 1))).zoom = some 1 :=
  ⟨(zoom_round_trip (camAt (some 5))).1 5 rfl (by decide),
   (zoom_round_trip (camAt (some 1))).2 rfl⟩

/-- C8 counterexample: resetToConstanta is an exposed operation that always
completes successfully, yet run from a reachable state with a pending GPS
error message it leaves that message in place — refuting the claim that
after every successful operation the error message is absent. -/
theorem error_not_cleared_by_reset :
    (resetToConstanta erroredState).1.errorMsg = some gpsErrorMsg ∧
    (resetToConstanta erroredState).1.errorMsg ≠ none := by
  constructor
  · simp [resetToConstanta, erroredState, grantedState, initialState]
  · simp [resetToConstanta, erroredState, grantedState, initialState]

/-- C8 amended: there is at most one current error message by construction
(errorMsg is a single optional string); each new permission or position
failure overwrites it with its own message whatever it was before; a
successful position acquisition and a successful permission grant clear it;
but operations without a failure mode — reset in particular — leave it
unchanged rather than clearing it. -/
theorem error_message_policy (s : AppState) :
    (∀ e, s.permissionGranted = true →
      (getCurrentPosition s (Except.error e)).1.errorMsg = some gpsErrorMsg) ∧
    (∀ loc, s.permissionGranted = true →
      (getCurrentPosition s (Except.ok loc)).1.errorMsg = none) ∧
    (resolvePermission s PermissionResult.granted).errorMsg = none ∧
    (resolvePermission s PermissionResult.denied).errorMsg =
      some ("Location permission was denied!") ∧
    (resetToConstanta s).1.errorMsg = s.errorMsg := by
  refine ⟨fun e hp => ?_, fun loc hp => ?_, ?_, ?_, ?_⟩ <;>
    simp [getCurrentPosition, resolvePermission, resetToConstanta, *]

/-- C8 amended witness: at the granted state a failure stores the GPS
message, a success clears it, the permission outcomes set it as described,
and reset keeps it as it was. -/
theorem error_message_policy_witness :
    (getCurrentPosition grantedState (Except.error ("timeout"))).1.errorMsg =
      some gpsErrorMsg ∧
    (getCurrentPosition grantedState (Except.ok sampleLoc)).1.errorMsg = none ∧
    (resolvePermission grantedState PermissionResult.granted).errorMsg = none ∧
    (resolvePermission grantedState PermissionResult.denied).errorMsg =
      some ("Location permission was denied!") ∧
    (resetToConstanta grantedState).1.errorMsg = grantedState.errorMsg :=
  ⟨(error_message_policy grantedState).1 ("timeout") rfl,
   (error_message_policy grantedState).2.1 sampleLoc rfl,
   (error_message_policy grantedState).2.2.1,
   (error_message_policy grantedState).2.2.2.1,
   (error_message_policy grantedState).2.2.2.2⟩

/-- C9: with no stored sample, showLocationDetails returns the state
unchanged with no effect and the details toggle cannot fire (the marker is
not rendered), so it is a no-op; with a stored sample, showLocationDetails
raises the details alert for exactly that sample and the marker press shows
the panel. -/
theorem show_details_gated (s : AppState) :
    (s.location = none →
      showLocationDetails s = (s, []) ∧ pressUserMarker s = s) ∧
    (∀ loc, s.location = some loc →
      (showLocationDetails s).1 = s ∧
      (showLocationDetails s).2 = [Effect.detailsAlert loc] ∧
      (pressUserMarker s).showDetails = true) := by
  refine ⟨fun h => ?_, fun loc h => ?_⟩ <;>
    simp [showLocationDetails, pressUserMarker, h]

/-- C9 witness: at the initial state (no sample) both entry points are
no-ops; at the located state the alert carries the stored sample and the
marker press shows the panel. -/
theorem show_details_gated_witness :
    (showLocationDetails initialState = (initialState, []) ∧
      pressUserMarker initialState = initialState) ∧
    ((showLocationDetails locatedState).1 = locatedState ∧
      (showLocationDetails locatedState).2 = [Effect.detailsAlert sampleLoc] ∧
      (pressUserMarker locatedState).showDetails = true) :=
  ⟨(show_details_gated initialState).1 rfl,
   (show_details_gated locatedState).2 sampleLoc rfl⟩

/-- C10: when the camera read returns an undefined zoom, or the falsy
zoom 0, both zoom operations substitute 10 as the current zoom, so zoomIn
animates (over 300 ms) to zoom 11 and zoomOut to zoom 9 — a fallback the
spec never states. -/
theorem zoom_default_fallback (camera : Camera)
    (h : camera.zoom = none ∨ camera.zoom = some 0) :
    (zoomInCam camera).zoom = some 11 ∧
    (zoomOutCam camera).zoom = some 9 ∧
    zoomIn true (Except.ok camera) =
      [Effect.animateCamera (zoomInCam camera) 300] ∧
    zoomOut true (Except.ok camera) =
      [Effect.animateCamera (zoomOutCam camera) 300] := by
  refine ⟨?_, ?_, ?_, ?_⟩ <;>
    rcases h with h | h <;>
      norm_num [zoomIn, zoomOut, zoomInCam, zoomOutCam, zoomOrDefault, h]

/-- C10 witness: a camera whose zoom is undefined goes to 11 on zoomIn and
9 on zoomOut, each animated over 300 ms. -/
theorem zoom_default_fallback_witness :
    (zoomInCam (camAt none)).zoom = some 11 ∧
    (zoomOutCam (camAt none)).zoom = some 9 ∧
    zoomIn true (Except.ok (camAt none)) =
      [Effect.animateCamera (zoomInCam (camAt none)) 300] ∧
    zoomOut true (Except.ok (camAt none)) =
      [Effect.animateCamera (zoomOutCam (camAt none)) 300] :=
  zoom_default_fallback (camAt none) (Or.inl rfl)

end MyGeoLocation
